import Mathlib

/-!
Verification of the post-it-app backend (Users / Posts / Comments CRUD with
soft deletion and ownership checks) against its natural-language specification.

The TypeScript handlers (createUser, getUsers, getUser, updateUser, deleteUser,
createPost, getPosts, updatePost, deletePost, createComment, getComments,
updateComment, deleteComment) and the avatar utilities (generateRandomAvatar,
generateAvatarTag) are shallowly embedded as pure Lean functions over an
explicit store.  The relational store (Prisma/PostgreSQL) is modelled as lists
of rows; `findUnique` / `findFirst` become `List.find?`, `findMany` becomes
`List.filter`, and `update` maps over the rows with the matching id.
Randomness (Math.random in the avatar module) is modelled by an explicit
`Entropy` input: the two entropy tokens drawn by `generateRandomAvatar` and the
random style index.  Timestamps are natural numbers supplied as an explicit
`now` argument; request-body fields that may be absent are `Option` values,
with JavaScript truthiness (`!x`) modelled by `truthyStr` / `truthyNat`.
-/

/-- A User row (Prisma model User).  `createdAt` / `updatedAt` are not needed
by any verified property and are omitted; `deletedAt` is the soft-delete
marker. -/
structure User where
  id : Nat
  email : String
  username : String
  avatarUrl : String
  avatarTag : String
  deletedAt : Option Nat
deriving Repr, DecidableEq

/-- A Post row (Prisma model Post).  `createdAt` is kept because getPosts
orders by it. -/
structure Post where
  id : Nat
  content : String
  userId : Nat
  createdAt : Nat
  deletedAt : Option Nat
deriving Repr, DecidableEq

/-- A Comment row (Prisma model Comment). -/
structure Comment where
  id : Nat
  content : String
  userId : Nat
  postId : Nat
  deletedAt : Option Nat
deriving Repr, DecidableEq

/-- The relational store: the three tables plus the auto-increment counters
for the `@id @default(autoincrement())` primary keys. -/
structure Store where
  users : List User
  posts : List Post
  comments : List Comment
  nextUserId : Nat
  nextPostId : Nat
  nextCommentId : Nat
deriving Repr, DecidableEq

/-- Outcome of one handler invocation: `res.status(code).json` with either a
data payload or an error message. -/
inductive HandlerResult (α : Type) where
  | success (code : Nat) (data : α)
  | failure (code : Nat) (message : String)
deriving Repr, DecidableEq

/-- JavaScript truthiness of a possibly-absent string body field:
`!x` is true exactly when the field is absent or the empty string. -/
def truthyStr : Option String → Bool
  | none => false
  | some s => !s.isEmpty

/-- JavaScript truthiness of a possibly-absent numeric body field:
`!x` is true exactly when the field is absent or the number 0. -/
def truthyNat : Option Nat → Bool
  | none => false
  | some n => n != 0

/-- The randomness consumed by one `generateRandomAvatar` call: the two
tokens produced by `entropySource()` (for the `@` and for the dots) and the
random index drawn by `getRandomAvatarStyle`. -/
structure Entropy where
  tok1 : String
  tok2 : String
  styleIndex : Nat

/-- The fixed catalog of avatar rendering styles (`avatarStyles`). -/
def avatarStyles : List String :=
  ["adventurer", "adventurer-neutral", "avataaars", "avataaars-neutral",
   "big-ears", "big-ears-neutral", "big-smile", "bottts", "bottts-neutral",
   "croodles", "croodles-neutral", "fun-emoji", "icons", "identicon",
   "initials", "lorelei", "lorelei-neutral", "micah", "miniavs",
   "open-peeps", "personas", "pixel-art", "pixel-art-neutral", "shapes",
   "thumbs"]

/-- `getRandomAvatarStyle`: `avatarStyles[Math.floor(Math.random() * avatarStyles.length)]`,
with the random draw modelled by an arbitrary natural index reduced into range. -/
def getRandomAvatarStyle (i : Nat) : String :=
  avatarStyles.getD (i % avatarStyles.length) ""

/-- JavaScript `String.prototype.trim`, on character lists: strip whitespace
from both ends. -/
def trimChars (cs : List Char) : List Char :=
  ((cs.dropWhile Char.isWhitespace).reverse.dropWhile Char.isWhitespace).reverse

/-- One character class `[^\s@]` of the email pattern. -/
def isEmailChar (c : Char) : Bool :=
  !c.isWhitespace && c != '@'

/-- The anchored email pattern of `generateRandomAvatar`
(one-or-more `[^\s@]`, then `@`, then one-or-more `[^\s@]`, then `.`,
then one-or-more `[^\s@]`): the string splits at its first `@` into a
non-empty all-`[^\s@]` local part and a domain of `[^\s@]` characters
containing a `.` that is neither its first nor its last character. -/
def validEmailChars (cs : List Char) : Bool :=
  let lp := cs.takeWhile (fun c => c != '@')
  match cs.dropWhile (fun c => c != '@') with
  | [] => false
  | _ :: domain =>
    !lp.isEmpty && lp.all isEmailChar && domain.all isEmailChar &&
      (domain.drop 1).dropLast.contains '.'

/-- The interpolation `` -${entropySource()}- `` wrapping one random token in
dashes. -/
def entropyWrap (t : String) : List Char :=
  '-' :: t.data ++ ['-']

/-- JavaScript `s.replace(c, repl)` for a single-character pattern: replace
only the first occurrence. -/
def replaceFirstChar (c : Char) (repl : List Char) : List Char → List Char
  | [] => []
  | x :: xs => if x = c then repl ++ xs else x :: replaceFirstChar c repl xs

/-- JavaScript `s.replace(/c/g, repl)` for a single-character pattern:
replace every occurrence (replacement text is not rescanned). -/
def replaceAllChar (c : Char) (repl : List Char) : List Char → List Char
  | [] => []
  | x :: xs =>
    if x = c then repl ++ replaceAllChar c repl xs
    else x :: replaceAllChar c repl xs

/-- The seed built by `generateRandomAvatar`:
`_email.replace("@", replaceAt).replace(/\./g, replaceDot)` where
`replaceAt` wraps the first entropy token and `replaceDot` wraps the second.
Note that every dot is replaced with the same `replaceDot` text. -/
def buildSeed (tok1 tok2 : String) (email : List Char) : List Char :=
  replaceAllChar '.' (entropyWrap tok2)
    (replaceFirstChar '@' (entropyWrap tok1) email)

/-- `generateRandomAvatar(email)`: trim, validate against the email pattern
(throwing "Invalid email" otherwise), build the randomized seed, pick a
random style, and construct the DiceBear URL with size=200 and radius=50. -/
def generateRandomAvatar (env : Entropy) (email : String) : Except String String :=
  let t := trimChars email.data
  if validEmailChars t = false then .error "Invalid email"
  else
    let seed := buildSeed env.tok1 env.tok2 t
    let randomAvatarStyle := getRandomAvatarStyle env.styleIndex
    if randomAvatarStyle.isEmpty || !(avatarStyles.contains randomAvatarStyle) then
      .error "Something failed: Invalid avatar style"
    else
      .ok ("https://api.dicebear.com/5.x/" ++ randomAvatarStyle ++ "/svg?seed=" ++
        String.mk seed ++ "&size=200&radius=50")

/-- `generateAvatarTag(username, avatarUrl)`: the fixed-format img markup. -/
def generateAvatarTag (username : String) (avatarUrl : String) : String :=
  "<img src=\"" ++ avatarUrl ++ "\" alt=\"Avatar for " ++ username ++ "\" />"

/-- `createUser`: 400 when email or username is falsy; 409 when an *active*
user already holds the email or the username (`findFirst` with
`OR: [email, username]`, `deletedAt: null`); otherwise generate the avatar,
derive the tag, and insert the new row. -/
def createUser (env : Entropy) (s : Store) (email username : Option String) :
    HandlerResult User × Store :=
  if !truthyStr email || !truthyStr username then
    (.failure 400 "Email and username are required", s)
  else
    let e := email.getD ""
    let u := username.getD ""
    match s.users.find? (fun x => (x.email == e || x.username == u) && x.deletedAt == none) with
    | some _ => (.failure 409 "Email or username already exists", s)
    | none =>
      match generateRandomAvatar env e with
      | .error m => (.failure 500 m, s)
      | .ok avatarUrl =>
        let avatarTag := generateAvatarTag u avatarUrl
        let newUser : User :=
          { id := s.nextUserId, email := e, username := u,
            avatarUrl := avatarUrl, avatarTag := avatarTag, deletedAt := none }
        (.success 201 newUser,
         { s with users := s.users ++ [newUser], nextUserId := s.nextUserId + 1 })

/-- `getUsers`: `onlyDeleted === "true"` selects rows with non-null
`deletedAt`; otherwise unless `includeDeleted === "true"` only rows with
null `deletedAt`; otherwise all rows. -/
def getUsers (s : Store) (includeDeleted onlyDeleted : Option String) :
    HandlerResult (List User) × Store :=
  let users :=
    if onlyDeleted = some "true" then s.users.filter (fun u => u.deletedAt != none)
    else if includeDeleted ≠ some "true" then s.users.filter (fun u => u.deletedAt == none)
    else s.users
  (.success 200 users, s)

/-- `getUser`: 404 when no row with the id exists or the row is
soft-deleted. -/
def getUser (s : Store) (id : Nat) : HandlerResult User × Store :=
  match s.users.find? (fun u => u.id == id) with
  | none => (.failure 404 "User not found", s)
  | some user =>
    if user.deletedAt != none then (.failure 404 "User not found", s)
    else (.success 200 user, s)

/-- `updateUser`: 404 when missing or soft-deleted.  When a truthy email is
supplied that differs from the current one, a conflict lookup
`findUnique({ where: { email } })` is made over ALL rows (no `deletedAt`
filter) and 409 is returned when it finds a row with a different id;
otherwise the avatar URL and tag are regenerated.  Falsy fields keep their
current value. -/
def updateUser (env : Entropy) (s : Store) (id : Nat) (email username : Option String) :
    HandlerResult User × Store :=
  match s.users.find? (fun u => u.id == id) with
  | none => (.failure 404 "User not found", s)
  | some user =>
    if user.deletedAt != none then (.failure 404 "User not found", s)
    else
      let e := email.getD ""
      let emailChanged := truthyStr email && e != user.email
      let conflict :=
        match s.users.find? (fun x => x.email == e) with
        | some other => other.id != user.id
        | none => false
      if emailChanged && conflict then
        (.failure 409 "Email already in use by another user", s)
      else
        let regen : Except String (String × String) :=
          if emailChanged then
            match generateRandomAvatar env e with
            | .error m => .error m
            | .ok url =>
              .ok (url, generateAvatarTag
                (if truthyStr username then username.getD "" else user.username) url)
          else .ok (user.avatarUrl, user.avatarTag)
        match regen with
        | .error m => (.failure 500 m, s)
        | .ok (avatarUrl, avatarTag) =>
          let updated : User :=
            { user with
              email := if truthyStr email then e else user.email,
              username := if truthyStr username then username.getD "" else user.username,
              avatarUrl := avatarUrl, avatarTag := avatarTag }
          (.success 200 updated,
           { s with users := s.users.map (fun u => if u.id == id then updated else u) })

/-- `deleteUser`: 404 when missing or already soft-deleted; otherwise set
`deletedAt` to the current time and return the updated row. -/
def deleteUser (s : Store) (now : Nat) (id : Nat) : HandlerResult User × Store :=
  match s.users.find? (fun u => u.id == id) with
  | none => (.failure 404 "User not found", s)
  | some user =>
    if user.deletedAt != none then (.failure 404 "User not found", s)
    else
      (.success 200 { user with deletedAt := some now },
       { s with users :=
          s.users.map (fun u => if u.id == id then { u with deletedAt := some now } else u) })

/-- `createPost`: 400 when content or userId is falsy; 404 when the userId
does not reference an active user; otherwise insert the new row. -/
def createPost (s : Store) (now : Nat) (content : Option String) (userId : Option Nat) :
    HandlerResult Post × Store :=
  if !truthyStr content || !truthyNat userId then
    (.failure 400 "Content and userId are required", s)
  else
    match s.users.find? (fun u => u.id == userId.getD 0 && u.deletedAt == none) with
    | none => (.failure 404 "User not found", s)
    | some _ =>
      let p : Post :=
        { id := s.nextPostId, content := content.getD "", userId := userId.getD 0,
          createdAt := now, deletedAt := none }
      (.success 201 p,
       { s with posts := s.posts ++ [p], nextPostId := s.nextPostId + 1 })

/-- Insertion step of the `orderBy: { createdAt: "desc" }` ordering. -/
def insertByCreatedAtDesc (p : Post) : List Post → List Post
  | [] => [p]
  | q :: qs =>
    if q.createdAt ≤ p.createdAt then p :: q :: qs
    else q :: insertByCreatedAtDesc p qs

/-- The `orderBy: { createdAt: "desc" }` ordering of `getPosts`, as an
insertion sort. -/
def sortByCreatedAtDesc : List Post → List Post
  | [] => []
  | p :: ps => insertByCreatedAtDesc p (sortByCreatedAtDesc ps)

/-- `getPosts`: same three-way soft-delete filter as `getUsers`, ordered by
creation time, most recent first. -/
def getPosts (s : Store) (includeDeleted onlyDeleted : Option String) :
    HandlerResult (List Post) × Store :=
  let posts :=
    if onlyDeleted = some "true" then s.posts.filter (fun p => p.deletedAt != none)
    else if includeDeleted ≠ some "true" then s.posts.filter (fun p => p.deletedAt == none)
    else s.posts
  (.success 200 (sortByCreatedAtDesc posts), s)

/-- `updatePost`: 404 when missing or soft-deleted; 403 when the body's
userId differs from the post's owning userId (an absent body userId also
differs); otherwise update the content (falsy content keeps the current
value). -/
def updatePost (s : Store) (id : Nat) (content : Option String) (userId : Option Nat) :
    HandlerResult Post × Store :=
  match s.posts.find? (fun p => p.id == id) with
  | none => (.failure 404 "Post not found", s)
  | some post =>
    if post.deletedAt != none then (.failure 404 "Post not found", s)
    else if userId ≠ some post.userId then
      (.failure 403 "You can only update your own posts", s)
    else
      let updated : Post :=
        { post with content := if truthyStr content then content.getD "" else post.content }
      (.success 200 updated,
       { s with posts := s.posts.map (fun p => if p.id == id then updated else p) })

/-- `deletePost`: same 404/403 checks as `updatePost`; sets `deletedAt`. -/
def deletePost (s : Store) (now : Nat) (id : Nat) (userId : Option Nat) :
    HandlerResult Post × Store :=
  match s.posts.find? (fun p => p.id == id) with
  | none => (.failure 404 "Post not found", s)
  | some post =>
    if post.deletedAt != none then (.failure 404 "Post not found", s)
    else if userId ≠ some post.userId then
      (.failure 403 "You can only delete your own posts", s)
    else
      let updated : Post := { post with deletedAt := some now }
      (.success 200 updated,
       { s with posts := s.posts.map (fun p => if p.id == id then updated else p) })

/-- `createComment`: 400 when content or userId is falsy; 404 "Post not
found" when postId does not reference an active post; then 404 "User not
found" when userId does not reference an active user; otherwise insert the
new row. -/
def createComment (s : Store) (postId : Nat) (content : Option String) (userId : Option Nat) :
    HandlerResult Comment × Store :=
  if !truthyStr content || !truthyNat userId then
    (.failure 400 "Content and userId are required", s)
  else
    match s.posts.find? (fun p => p.id == postId && p.deletedAt == none) with
    | none => (.failure 404 "Post not found", s)
    | some _ =>
      match s.users.find? (fun u => u.id == userId.getD 0 && u.deletedAt == none) with
      | none => (.failure 404 "User not found", s)
      | some _ =>
        let c : Comment :=
          { id := s.nextCommentId, content := content.getD "", userId := userId.getD 0,
            postId := postId, deletedAt := none }
        (.success 201 c,
         { s with comments := s.comments ++ [c], nextCommentId := s.nextCommentId + 1 })

/-- `getComments`: scoped to the given postId, with the same three-way
soft-delete filter as `getUsers`. -/
def getComments (s : Store) (postId : Nat) (includeDeleted onlyDeleted : Option String) :
    HandlerResult (List Comment) × Store :=
  let comments :=
    if onlyDeleted = some "true" then
      s.comments.filter (fun c => c.postId == postId && c.deletedAt != none)
    else if includeDeleted ≠ some "true" then
      s.comments.filter (fun c => c.postId == postId && c.deletedAt == none)
    else
      s.comments.filter (fun c => c.postId == postId)
  (.success 200 comments, s)

/-- `updateComment`: lookup by id and postId; 404 when missing or
soft-deleted; 403 when the body's userId differs from the comment's owning
userId; otherwise update the content (falsy content keeps the current
value). -/
def updateComment (s : Store) (postId id : Nat) (content : Option String) (userId : Option Nat) :
    HandlerResult Comment × Store :=
  match s.comments.find? (fun c => c.id == id && c.postId == postId) with
  | none => (.failure 404 "Comment not found", s)
  | some comment =>
    if comment.deletedAt != none then (.failure 404 "Comment not found", s)
    else if userId ≠ some comment.userId then
      (.failure 403 "You can only update your own comments", s)
    else
      let updated : Comment :=
        { comment with content := if truthyStr content then content.getD "" else comment.content }
      (.success 200 updated,
       { s with comments := s.comments.map (fun c => if c.id == id then updated else c) })

/-- `deleteComment`: same 404/403 checks as `updateComment`; sets
`deletedAt`. -/
def deleteComment (s : Store) (now : Nat) (postId id : Nat) (userId : Option Nat) :
    HandlerResult Comment × Store :=
  match s.comments.find? (fun c => c.id == id && c.postId == postId) with
  | none => (.failure 404 "Comment not found", s)
  | some comment =>
    if comment.deletedAt != none then (.failure 404 "Comment not found", s)
    else if userId ≠ some comment.userId then
      (.failure 403 "You can only delete your own comments", s)
    else
      let updated : Comment := { comment with deletedAt := some now }
      (.success 200 updated,
       { s with comments := s.comments.map (fun c => if c.id == id then updated else c) })

/-- The data list of an always-successful list endpoint response. -/
def dataList {α : Type} (r : HandlerResult (List α) × Store) : List α :=
  match r.1 with
  | .success _ l => l
  | .failure _ _ => []

/-- Modelled from the spec: "Builds a seed by substituting the `@` and every
`.` in the trimmed email with independently-random short tokens" — each
substitution draws a fresh token from the entropy stream, so two dots get
two independently chosen tokens.  (This is the spec's reading, to be
compared with `buildSeed`, the seed the source actually builds.) -/
def specSeedIndependent : List String → List Char → List Char
  | _, [] => []
  | toks, c :: cs =>
    if c = '@' ∨ c = '.' then
      entropyWrap (toks.headD "") ++ specSeedIndependent (toks.drop 1) cs
    else c :: specSeedIndependent toks cs

/-- Single pass over the characters after the first `@`: every `.` becomes
the wrapped second token. -/
def substTail (t2 : String) : List Char → List Char
  | [] => []
  | c :: cs =>
    if c = '.' then entropyWrap t2 ++ substTail t2 cs
    else c :: substTail t2 cs

/-- Single-pass description of the seed: the first `@` becomes the wrapped
first token and every `.` (before or after it) becomes the wrapped second
token — the same token at every dot. -/
def substEmail (t1 t2 : String) : List Char → List Char
  | [] => []
  | c :: cs =>
    if c = '@' then entropyWrap t1 ++ substTail t2 cs
    else if c = '.' then entropyWrap t2 ++ substEmail t1 t2 cs
    else c :: substEmail t1 t2 cs

theorem replaceAllChar_append (c : Char) (r xs ys : List Char) :
    replaceAllChar c r (xs ++ ys) = replaceAllChar c r xs ++ replaceAllChar c r ys := by
  induction xs with
  | nil => rfl
  | cons x t ih =>
    simp only [List.cons_append, replaceAllChar]
    split
    · simp [ih]
    · simp [ih]

theorem replaceAllChar_of_not_mem (c : Char) (r : List Char) (xs : List Char)
    (h : c ∉ xs) : replaceAllChar c r xs = xs := by
  induction xs with
  | nil => rfl
  | cons x t ih =>
    simp only [List.mem_cons, not_or] at h
    simp only [replaceAllChar]
    rw [if_neg (fun hx => h.1 hx.symm), ih h.2]

theorem substTail_eq (t2 : String) (l : List Char) :
    substTail t2 l = replaceAllChar '.' (entropyWrap t2) l := by
  induction l with
  | nil => rfl
  | cons x t ih =>
    simp only [substTail, replaceAllChar]
    split
    · rw [ih]
    · rw [ih]

theorem buildSeed_eq_substEmail (t1 t2 : String) (l : List Char)
    (h1 : '.' ∉ t1.data) : buildSeed t1 t2 l = substEmail t1 t2 l := by
  have hw1 : '.' ∉ entropyWrap t1 := by
    intro hmem
    rcases List.mem_cons.mp hmem with h | h
    · exact absurd h (by decide)
    · rcases List.mem_append.mp h with h2 | h2
      · exact h1 h2
      · exact absurd (List.mem_singleton.mp h2) (by decide)
  induction l with
  | nil => rfl
  | cons x xs ih =>
    by_cases hat : x = '@'
    · subst hat
      rw [buildSeed, replaceFirstChar, if_pos rfl, substEmail, if_pos rfl,
        replaceAllChar_append, substTail_eq,
        replaceAllChar_of_not_mem '.' (entropyWrap t2) (entropyWrap t1) hw1]
    · by_cases hdot : x = '.'
      · subst hdot
        rw [buildSeed, replaceFirstChar, if_neg (by decide), substEmail,
          if_neg (by decide), if_pos rfl, replaceAllChar, if_pos rfl, ← ih]
        rfl
      · rw [buildSeed, replaceFirstChar, if_neg hat, substEmail, if_neg hat,
          if_neg hdot, replaceAllChar, if_neg hdot, ← ih]
        rfl

theorem avatarStyles_getD_facts :
    ∀ i < 25, avatarStyles.getD i "" ∈ avatarStyles ∧
      (avatarStyles.getD i "").isEmpty = false ∧
      avatarStyles.contains (avatarStyles.getD i "") = true := by decide

/-- The randomly selected style is a catalog member, is non-empty, and
passes the handler's `includes` check. -/
theorem getRandomAvatarStyle_facts (i : Nat) :
    getRandomAvatarStyle i ∈ avatarStyles ∧
      (getRandomAvatarStyle i).isEmpty = false ∧
      avatarStyles.contains (getRandomAvatarStyle i) = true := by
  have hlt : i % avatarStyles.length < 25 := Nat.mod_lt _ (by decide)
  exact avatarStyles_getD_facts (i % avatarStyles.length) hlt

/-- On a pattern-valid trimmed email, `generateRandomAvatar` succeeds and
returns exactly the DiceBear URL over the random style and the built seed. -/
theorem generateRandomAvatar_ok (env : Entropy) (email : String)
    (hv : validEmailChars (trimChars email.data) = true) :
    generateRandomAvatar env email =
      .ok ("https://api.dicebear.com/5.x/" ++ getRandomAvatarStyle env.styleIndex ++
        "/svg?seed=" ++ String.mk (buildSeed env.tok1 env.tok2 (trimChars email.data)) ++
        "&size=200&radius=50") := by
  obtain ⟨-, h2, h3⟩ := getRandomAvatarStyle_facts env.styleIndex
  simp only [generateRandomAvatar, hv, h2, h3]
  simp

theorem find?_isSome_iff_exists {α : Type} (p : α → Bool) (l : List α) :
    (l.find? p).isSome = true ↔ ∃ x ∈ l, p x = true := by
  rw [List.find?_isSome]

theorem find?_map_of_preserves (l : List User) (id : Nat) (f : User → User)
    (hf : ∀ u, (f u).id = u.id) :
    (l.map f).find? (fun u => u.id == id) = (l.find? (fun u => u.id == id)).map f := by
  induction l with
  | nil => rfl
  | cons a t ih =>
    simp only [List.map_cons, List.find?_cons]
    rw [hf a]
    cases h : (a.id == id)
    · simpa [h] using ih
    · simp [h]

theorem mem_insertByCreatedAtDesc (p a : Post) (l : List Post) :
    a ∈ insertByCreatedAtDesc p l ↔ a = p ∨ a ∈ l := by
  induction l with
  | nil => simp [insertByCreatedAtDesc]
  | cons q qs ih =>
    simp only [insertByCreatedAtDesc]
    split
    · simp
    · simp only [List.mem_cons, ih]
      tauto

theorem mem_sortByCreatedAtDesc (a : Post) (l : List Post) :
    a ∈ sortByCreatedAtDesc l ↔ a ∈ l := by
  induction l with
  | nil => exact Iff.rfl
  | cons p ps ih => simp [sortByCreatedAtDesc, mem_insertByCreatedAtDesc, ih]

/-- Fixed entropy used by the concrete witnesses. -/
def env0 : Entropy := ⟨"abc", "xyz", 3⟩

/-- An active sample user. -/
def alice : User := ⟨1, "a@x.com", "alice", "url-a", "tag-a", none⟩

/-- A soft-deleted sample user holding the email "b@x.com". -/
def bob : User := ⟨2, "b@x.com", "bob", "url-b", "tag-b", some 5⟩

/-- A second active sample user. -/
def carol : User := ⟨3, "c@x.com", "carol", "url-c", "tag-c", none⟩

/-- An active sample post owned by alice. -/
def post1 : Post := ⟨1, "hi", 1, 10, none⟩

/-- A soft-deleted sample post. -/
def post2 : Post := ⟨2, "old", 1, 4, some 6⟩

/-- An active sample comment by alice under post1. -/
def comment1 : Comment := ⟨1, "hey", 1, 1, none⟩

/-- A soft-deleted sample comment under post1. -/
def comment2 : Comment := ⟨2, "gone", 1, 1, some 7⟩

/-- The sample store used by the concrete witnesses. -/
def store0 : Store := ⟨[alice, bob, carol], [post1, post2], [comment1, comment2], 4, 3, 3⟩

/-- Claim C1 counterexample: in `store0` the only holder of "b@x.com" is the
soft-deleted user bob, yet `updateUser` of the active user alice (id 1) to
that email fails with ConflictError 409 — the conflict lookup
`findUnique({ where: { email } })` has no deletedAt filter, so a
soft-deleted holder does cause ConflictError, refuting the claim. -/
theorem updateUser_conflict_softdeleted_counterexample :
    (∀ v ∈ store0.users, v.email = "b@x.com" → v.deletedAt ≠ none) ∧
    (updateUser env0 store0 1 (some "b@x.com") none).1 =
      .failure 409 "Email already in use by another user" := by
  constructor
  · decide
  · decide

/-- Claim C1 (amended): for an existing active target user and a supplied
email that is truthy and differs from the current one, `updateUser` fails
with ConflictError 409 exactly when ANY user row — active or soft-deleted —
holds that email (under distinct row ids, as guaranteed by the primary
key). -/
theorem updateUser_email_conflict_any_row (env : Entropy) (s : Store) (id : Nat)
    (email username : Option String) (user : User)
    (hids : (s.users.map User.id).Nodup)
    (hfind : s.users.find? (fun u => u.id == id) = some user)
    (hactive : user.deletedAt = none)
    (he : truthyStr email = true)
    (hne : email.getD "" ≠ user.email) :
    ((updateUser env s id email username).1 =
        .failure 409 "Email already in use by another user") ↔
      ∃ v ∈ s.users, v.email = email.getD "" := by
  have hbne : (email.getD "" != user.email) = true := bne_iff_ne.mpr hne
  cases hc : s.users.find? (fun x => x.email == email.getD "") with
  | none =>
    have hnone : ∀ v ∈ s.users, v.email ≠ email.getD "" := by
      intro v hv hveq
      have := List.find?_eq_none.mp hc v hv
      exact this (beq_iff_eq.mpr hveq)
    simp only [updateUser, hfind, hactive, hc, he, hbne]
    constructor
    · intro hres
      cases hgen : generateRandomAvatar env (email.getD "") with
      | error m =>
        simp only [hgen] at hres
        simp at hres
      | ok url =>
        simp only [hgen] at hres
        simp at hres
    · rintro ⟨v, hv, hveq⟩
      exact absurd hveq (hnone v hv)
  | some other =>
    have hother_mem : other ∈ s.users := List.mem_of_find?_eq_some hc
    have hother_email : other.email = email.getD "" := by
      have h := List.find?_some hc
      simpa using h
    have huser_mem : user ∈ s.users := List.mem_of_find?_eq_some hfind
    have hid_ne : other.id ≠ user.id := by
      intro heq
      have : other = user := List.inj_on_of_nodup_map hids hother_mem huser_mem heq
      rw [this] at hother_email
      exact hne hother_email.symm
    have hconf : (other.id != user.id) = true := bne_iff_ne.mpr hid_ne
    simp only [updateUser, hfind, hactive, hc, he, hbne, hconf]
    constructor
    · intro _
      exact ⟨other, hother_mem, hother_email⟩
    · intro _
      simp

/-- Claim C1 witness: the amended conflict characterization applied to
`store0`, whose user ids are distinct, whose id 1 is the active user alice,
and where the supplied email "b@x.com" differs from alice's email. -/
theorem updateUser_email_conflict_any_row_witness :
    (store0.users.map User.id).Nodup ∧
    store0.users.find? (fun u => u.id == 1) = some alice ∧
    alice.deletedAt = none ∧
    truthyStr (some "b@x.com") = true ∧
    (some "b@x.com" : Option String).getD "" ≠ alice.email ∧
    (((updateUser env0 store0 1 (some "b@x.com") none).1 =
        .failure 409 "Email already in use by another user") ↔
      ∃ v ∈ store0.users, v.email = (some "b@x.com" : Option String).getD "") :=
  ⟨by decide, by decide, by decide, by decide, by decide,
    updateUser_email_conflict_any_row env0 store0 1 (some "b@x.com") none alice
      (by decide) (by decide) (by decide) (by decide) (by decide)⟩

/-- Claim C2: with truthy content and userId, `createComment` fails 404
"Post not found" (store unchanged) when postId references no active post;
otherwise fails 404 "User not found" (store unchanged) when userId
references no active user; and a Comment row is created — appended to the
comments table — exactly when both references are active. -/
theorem createComment_reference_checks (s : Store) (pid : Nat)
    (content : Option String) (userId : Option Nat)
    (hc : truthyStr content = true) (hu : truthyNat userId = true) :
    ((¬ ∃ p ∈ s.posts, p.id = pid ∧ p.deletedAt = none) →
      createComment s pid content userId = (.failure 404 "Post not found", s)) ∧
    ((∃ p ∈ s.posts, p.id = pid ∧ p.deletedAt = none) →
      (¬ ∃ u ∈ s.users, u.id = userId.getD 0 ∧ u.deletedAt = none) →
      createComment s pid content userId = (.failure 404 "User not found", s)) ∧
    ((∃ c, (createComment s pid content userId).1 = .success 201 c) ↔
      (∃ p ∈ s.posts, p.id = pid ∧ p.deletedAt = none) ∧
        ∃ u ∈ s.users, u.id = userId.getD 0 ∧ u.deletedAt = none) ∧
    (∀ c, (createComment s pid content userId).1 = .success 201 c →
      (createComment s pid content userId).2.comments = s.comments ++ [c]) := by
  have hpost : (s.posts.find? (fun p => p.id == pid && p.deletedAt == none)).isSome = true ↔
      ∃ p ∈ s.posts, p.id = pid ∧ p.deletedAt = none := by
    rw [find?_isSome_iff_exists]
    constructor
    · rintro ⟨p, hp, hpp⟩
      simp only [Bool.and_eq_true, beq_iff_eq] at hpp
      exact ⟨p, hp, hpp⟩
    · rintro ⟨p, hp, h1, h2⟩
      exact ⟨p, hp, by simp [h1, h2]⟩
  have huser : (s.users.find? (fun u => u.id == userId.getD 0 && u.deletedAt == none)).isSome = true ↔
      ∃ u ∈ s.users, u.id = userId.getD 0 ∧ u.deletedAt = none := by
    rw [find?_isSome_iff_exists]
    constructor
    · rintro ⟨u, hm, hup⟩
      simp only [Bool.and_eq_true, beq_iff_eq] at hup
      exact ⟨u, hm, hup⟩
    · rintro ⟨u, hm, h1, h2⟩
      exact ⟨u, hm, by simp [h1, h2]⟩
  cases hp : s.posts.find? (fun p => p.id == pid && p.deletedAt == none) with
  | none =>
    have hnp : ¬ ∃ p ∈ s.posts, p.id = pid ∧ p.deletedAt = none := by
      rw [← hpost, hp]
      simp
    refine ⟨fun _ => ?_, fun hex _ => absurd hex hnp, ⟨?_, ?_⟩, ?_⟩
    · simp [createComment, hc, hu, hp]
    · rintro ⟨c, hcres⟩
      simp [createComment, hc, hu, hp] at hcres
    · rintro ⟨hex, -⟩
      exact absurd hex hnp
    · intro c hcres
      simp [createComment, hc, hu, hp] at hcres
  | some p0 =>
    have hyp : ∃ p ∈ s.posts, p.id = pid ∧ p.deletedAt = none := by
      rw [← hpost, hp]
      rfl
    cases hu2 : s.users.find? (fun u => u.id == userId.getD 0 && u.deletedAt == none) with
    | none =>
      have hnu : ¬ ∃ u ∈ s.users, u.id = userId.getD 0 ∧ u.deletedAt = none := by
        rw [← huser, hu2]
        simp
      refine ⟨fun hnex => absurd hyp hnex, fun _ _ => ?_, ⟨?_, ?_⟩, ?_⟩
      · simp [createComment, hc, hu, hp, hu2]
      · rintro ⟨c, hcres⟩
        simp [createComment, hc, hu, hp, hu2] at hcres
      · rintro ⟨-, hex⟩
        exact absurd hex hnu
      · intro c hcres
        simp [createComment, hc, hu, hp, hu2] at hcres
    | some u0 =>
      have hyu : ∃ u ∈ s.users, u.id = userId.getD 0 ∧ u.deletedAt = none := by
        rw [← huser, hu2]
        rfl
      refine ⟨fun hnex => absurd hyp hnex, fun _ hnex => absurd hyu hnex, ⟨?_, ?_⟩, ?_⟩
      · intro _
        exact ⟨hyp, hyu⟩
      · intro _
        refine ⟨⟨s.nextCommentId, content.getD "", userId.getD 0, pid, none⟩, ?_⟩
        simp [createComment, hc, hu, hp, hu2]
      · intro c hcres
        simp [createComment, hc, hu, hp, hu2] at hcres ⊢
        rw [← hcres]

/-- Claim C2 witness: creating a comment in `store0` under the nonexistent
postId 99 fails with 404 "Post not found" and leaves the store unchanged. -/
theorem createComment_reference_checks_witness :
    truthyStr (some "hello") = true ∧ truthyNat (some 1) = true ∧
    (¬ ∃ p ∈ store0.posts, p.id = 99 ∧ p.deletedAt = none) ∧
    createComment store0 99 (some "hello") (some 1) = (.failure 404 "Post not found", store0) :=
  ⟨by decide, by decide, by decide,
    (createComment_reference_checks store0 99 (some "hello") (some 1)
      (by decide) (by decide)).1 (by decide)⟩

/-- Claim C3: for an existing active post and any supplied body userId that
differs from the post's owning userId, `updatePost` fails with 403
ForbiddenError and returns the store unchanged (so the content and every
other field are untouched), and `deletePost` performs the same ownership
check with the same outcome. -/
theorem updatePost_nonowner_forbidden (s : Store) (now id : Nat)
    (content : Option String) (userId : Option Nat) (post : Post)
    (hfind : s.posts.find? (fun p => p.id == id) = some post)
    (hactive : post.deletedAt = none)
    (hne : userId ≠ some post.userId) :
    updatePost s id content userId =
      (.failure 403 "You can only update your own posts", s) ∧
    deletePost s now id userId =
      (.failure 403 "You can only delete your own posts", s) := by
  constructor
  · simp [updatePost, hfind, hactive, hne]
  · simp [deletePost, hfind, hactive, hne]

/-- Claim C3 witness: carol (id 3) updating or deleting alice's post `post1`
in `store0` gets 403 and the store is unchanged. -/
theorem updatePost_nonowner_forbidden_witness :
    store0.posts.find? (fun p => p.id == 1) = some post1 ∧
    post1.deletedAt = none ∧
    (some 3 : Option Nat) ≠ some post1.userId ∧
    (updatePost store0 1 (some "hacked") (some 3) =
        (.failure 403 "You can only update your own posts", store0) ∧
      deletePost store0 20 1 (some 3) =
        (.failure 403 "You can only delete your own posts", store0)) :=
  ⟨by decide, by decide, by decide,
    updatePost_nonowner_forbidden store0 20 1 (some "hacked") (some 3) post1
      (by decide) (by decide) (by decide)⟩

/-- Claim C9: for an existing active post (resp. comment), `update` and
`softDelete` with the body userId omitted yield exactly 403 ForbiddenError
— never ValidationError 400 — because the absent value is compared against
the recorded owner and always differs. -/
theorem omitted_userId_forbidden (s : Store) (now pid cid id : Nat)
    (content : Option String) :
    (∀ post : Post, s.posts.find? (fun p => p.id == id) = some post →
      post.deletedAt = none →
      updatePost s id content none =
        (.failure 403 "You can only update your own posts", s) ∧
      deletePost s now id none =
        (.failure 403 "You can only delete your own posts", s)) ∧
    (∀ c : Comment, s.comments.find? (fun x => x.id == cid && x.postId == pid) = some c →
      c.deletedAt = none →
      updateComment s pid cid content none =
        (.failure 403 "You can only update your own comments", s) ∧
      deleteComment s now pid cid none =
        (.failure 403 "You can only delete your own comments", s)) := by
  constructor
  · intro post hfind hactive
    constructor
    · simp [updatePost, hfind, hactive]
    · simp [deletePost, hfind, hactive]
  · intro c hfind hactive
    constructor
    · simp [updateComment, hfind, hactive]
    · simp [deleteComment, hfind, hactive]

/-- Claim C9 witness: updating or deleting `post1` and `comment1` of
`store0` without a body userId yields 403, not 400. -/
theorem omitted_userId_forbidden_witness :
    store0.posts.find? (fun p => p.id == 1) = some post1 ∧
    post1.deletedAt = none ∧
    store0.comments.find? (fun x => x.id == 1 && x.postId == 1) = some comment1 ∧
    comment1.deletedAt = none ∧
    (updatePost store0 1 (some "zz") none =
        (.failure 403 "You can only update your own posts", store0) ∧
      deletePost store0 21 1 none =
        (.failure 403 "You can only delete your own posts", store0)) ∧
    (updateComment store0 1 1 (some "zz") none =
        (.failure 403 "You can only update your own comments", store0) ∧
      deleteComment store0 21 1 1 none =
        (.failure 403 "You can only delete your own comments", store0)) :=
  ⟨by decide, by decide, by decide, by decide,
    (omitted_userId_forbidden store0 21 1 1 1 (some "zz")).1 post1 (by decide) (by decide),
    (omitted_userId_forbidden store0 21 1 1 1 (some "zz")).2 comment1 (by decide) (by decide)⟩

/-- `deleteUser` on an id whose (first) row is already soft-deleted reports
404. -/
theorem deleteUser_deleted_404 (s : Store) (now id : Nat) (v : User) (t : Nat)
    (hfind : s.users.find? (fun u => u.id == id) = some v)
    (hdel : v.deletedAt = some t) :
    (deleteUser s now id).1 = .failure 404 "User not found" := by
  simp [deleteUser, hfind, hdel]

/-- Claim C5: soft-deleting an existing active user succeeds with the record
whose deletedAt is the current time; immediately afterwards `getUser` on the
id yields 404, the deleted-only listing contains the id, and a second
`deleteUser` yields 404. -/
theorem softDelete_then_get (s : Store) (now now2 id : Nat) (user : User)
    (hfind : s.users.find? (fun u => u.id == id) = some user)
    (hactive : user.deletedAt = none) :
    (deleteUser s now id).1 = .success 200 { user with deletedAt := some now } ∧
    (getUser (deleteUser s now id).2 id).1 = .failure 404 "User not found" ∧
    (∃ v ∈ dataList (getUsers (deleteUser s now id).2 none (some "true")), v.id = user.id) ∧
    (deleteUser (deleteUser s now id).2 now2 id).1 = .failure 404 "User not found" := by
  have hid0 : user.id = id := by simpa using List.find?_some hfind
  have hid : (user.id == id) = true := beq_iff_eq.mpr hid0
  have hs' : (deleteUser s now id).2.users =
      s.users.map (fun u => if u.id == id then { u with deletedAt := some now } else u) := by
    simp [deleteUser, hfind, hactive]
  have hpres : ∀ u : User,
      ((fun u => if u.id == id then { u with deletedAt := some now } else u) u).id = u.id := by
    intro u
    by_cases h : (u.id == id) = true
    · simp [h]
    · simp [h]
  have hfind2 : (deleteUser s now id).2.users.find? (fun u => u.id == id) =
      some { user with deletedAt := some now } := by
    rw [hs', find?_map_of_preserves _ _ _ hpres, hfind]
    simp [hid0]
  refine ⟨?_, ?_, ?_, ?_⟩
  · simp [deleteUser, hfind, hactive]
  · simp [getUser, hfind2]
  · refine ⟨{ user with deletedAt := some now }, ?_, rfl⟩
    have hdl : dataList (getUsers (deleteUser s now id).2 none (some "true")) =
        (deleteUser s now id).2.users.filter (fun u => u.deletedAt != none) := by
      simp [getUsers, dataList]
    rw [hdl, List.mem_filter, hs']
    refine ⟨List.mem_map.mpr ⟨user, List.mem_of_find?_eq_some hfind, by simp [hid]⟩, by simp⟩
  · exact deleteUser_deleted_404 _ now2 id _ now hfind2 rfl

/-- Claim C5 witness: soft-deleting alice (id 1) in `store0` at time 30
behaves as characterized. -/
theorem softDelete_then_get_witness :
    store0.users.find? (fun u => u.id == 1) = some alice ∧
    alice.deletedAt = none ∧
    ((deleteUser store0 30 1).1 = .success 200 { alice with deletedAt := some 30 } ∧
      (getUser (deleteUser store0 30 1).2 1).1 = .failure 404 "User not found" ∧
      (∃ v ∈ dataList (getUsers (deleteUser store0 30 1).2 none (some "true")), v.id = alice.id) ∧
      (deleteUser (deleteUser store0 30 1).2 31 1).1 = .failure 404 "User not found") :=
  ⟨by decide, by decide,
    softDelete_then_get store0 30 31 1 alice (by decide) (by decide)⟩

/-- Claim C4: for Users, Posts and Comments alike, the default listing
contains exactly the rows with null deletedAt, the deleted-only listing
(onlyDeleted=true) exactly the rows with non-null deletedAt, and the
include-deleted listing (includeDeleted=true) all rows — a superset of the
default listing that also contains every deleted row.  Comments are
additionally scoped to the requested postId. -/
theorem list_filters (s : Store) (pid : Nat) (inc only : Option String)
    (honly : only ≠ some "true") (hinc : inc ≠ some "true") :
    (∀ u : User, u ∈ dataList (getUsers s inc only) ↔ u ∈ s.users ∧ u.deletedAt = none) ∧
    (∀ u : User, u ∈ dataList (getUsers s inc (some "true")) ↔ u ∈ s.users ∧ u.deletedAt ≠ none) ∧
    (∀ u : User, u ∈ dataList (getUsers s (some "true") only) ↔ u ∈ s.users) ∧
    (∀ u : User, u ∈ dataList (getUsers s inc only) →
      u ∈ dataList (getUsers s (some "true") only)) ∧
    (∀ p : Post, p ∈ dataList (getPosts s inc only) ↔ p ∈ s.posts ∧ p.deletedAt = none) ∧
    (∀ p : Post, p ∈ dataList (getPosts s inc (some "true")) ↔ p ∈ s.posts ∧ p.deletedAt ≠ none) ∧
    (∀ p : Post, p ∈ dataList (getPosts s (some "true") only) ↔ p ∈ s.posts) ∧
    (∀ c : Comment, c ∈ dataList (getComments s pid inc only) ↔
      c ∈ s.comments ∧ c.postId = pid ∧ c.deletedAt = none) ∧
    (∀ c : Comment, c ∈ dataList (getComments s pid inc (some "true")) ↔
      c ∈ s.comments ∧ c.postId = pid ∧ c.deletedAt ≠ none) ∧
    (∀ c : Comment, c ∈ dataList (getComments s pid (some "true") only) ↔
      c ∈ s.comments ∧ c.postId = pid) := by
  refine ⟨?_, ?_, ?_, ?_, ?_, ?_, ?_, ?_, ?_, ?_⟩
  · intro u
    simp [getUsers, dataList, honly, hinc, List.mem_filter]
  · intro u
    simp [getUsers, dataList, List.mem_filter]
  · intro u
    simp [getUsers, dataList, honly]
  · intro u
    simp [getUsers, dataList, honly, hinc, List.mem_filter]
    intro h _
    exact h
  · intro p
    simp [getPosts, dataList, honly, hinc, mem_sortByCreatedAtDesc, List.mem_filter]
  · intro p
    simp [getPosts, dataList, mem_sortByCreatedAtDesc, List.mem_filter]
  · intro p
    simp [getPosts, dataList, honly, mem_sortByCreatedAtDesc]
  · intro c
    simp [getComments, dataList, honly, hinc, List.mem_filter]
  · intro c
    simp [getComments, dataList, List.mem_filter]
  · intro c
    simp [getComments, dataList, honly, List.mem_filter]

/-- Claim C4 witness: the filter characterization applied to `store0` with
both query flags absent, evaluated at the active user alice and at the
soft-deleted user bob. -/
theorem list_filters_witness :
    (none : Option String) ≠ some "true" ∧
    (alice ∈ dataList (getUsers store0 none none) ↔
      alice ∈ store0.users ∧ alice.deletedAt = none) ∧
    (bob ∈ dataList (getUsers store0 none (some "true")) ↔
      bob ∈ store0.users ∧ bob.deletedAt ≠ none) :=
  ⟨by decide,
    (list_filters store0 1 none none (by decide) (by decide)).1 alice,
    (list_filters store0 1 none none (by decide) (by decide)).2.1 bob⟩

/-- Claim C6: `createUser` fails 400 ValidationError when email or username
is missing (falsy), and otherwise fails 409 ConflictError exactly when some
active (deletedAt = none) user row already holds the supplied email or the
supplied username — in particular a second create against a still-active
email with a different username conflicts. -/
theorem createUser_validation_conflict (env : Entropy) (s : Store)
    (email username : Option String) :
    ((truthyStr email = false ∨ truthyStr username = false) →
      createUser env s email username =
        (.failure 400 "Email and username are required", s)) ∧
    (truthyStr email = true → truthyStr username = true →
      ((createUser env s email username).1 =
          .failure 409 "Email or username already exists" ↔
        ∃ v ∈ s.users, v.deletedAt = none ∧
          (v.email = email.getD "" ∨ v.username = username.getD ""))) := by
  constructor
  · rintro (h | h) <;> simp [createUser, h]
  · intro he hu
    have hiff : (s.users.find? (fun x =>
        (x.email == email.getD "" || x.username == username.getD "") &&
          x.deletedAt == none)).isSome = true ↔
        ∃ v ∈ s.users, v.deletedAt = none ∧
          (v.email = email.getD "" ∨ v.username = username.getD "") := by
      rw [find?_isSome_iff_exists]
      constructor
      · rintro ⟨v, hv, hvp⟩
        simp only [Bool.and_eq_true, Bool.or_eq_true, beq_iff_eq] at hvp
        exact ⟨v, hv, hvp.2, hvp.1⟩
      · rintro ⟨v, hv, h1, h2⟩
        refine ⟨v, hv, ?_⟩
        simp only [Bool.and_eq_true, Bool.or_eq_true, beq_iff_eq]
        exact ⟨h2, h1⟩
    cases hc : s.users.find? (fun x =>
        (x.email == email.getD "" || x.username == username.getD "") &&
          x.deletedAt == none) with
    | some v =>
      constructor
      · intro _
        exact hiff.mp (by rw [hc]; rfl)
      · intro _
        simp [createUser, he, hu, hc]
    | none =>
      constructor
      · intro hres
        cases hgen : generateRandomAvatar env (email.getD "") with
        | error m => simp [createUser, he, hu, hc, hgen] at hres
        | ok url => simp [createUser, he, hu, hc, hgen] at hres
      · intro hex
        have hsome := hiff.mpr hex
        rw [hc] at hsome
        simp at hsome

/-- Claim C6 witness: creating a user with alice's still-active email
"a@x.com" and the fresh username "zeta" in `store0` yields 409. -/
theorem createUser_validation_conflict_witness :
    truthyStr (some "a@x.com") = true ∧ truthyStr (some "zeta") = true ∧
    (∃ v ∈ store0.users, v.deletedAt = none ∧
      (v.email = (some "a@x.com" : Option String).getD "" ∨
        v.username = (some "zeta" : Option String).getD "")) ∧
    (createUser env0 store0 (some "a@x.com") (some "zeta")).1 =
      .failure 409 "Email or username already exists" :=
  ⟨by decide, by decide, by decide,
    ((createUser_validation_conflict env0 store0 (some "a@x.com") (some "zeta")).2
      (by decide) (by decide)).mpr (by decide)⟩

/-- The empty store. -/
def emptyStore : Store := ⟨[], [], [], 1, 1, 1⟩

/-- Claim C8: for truthy email/username with no active conflict and a
successful avatar generation, `createUser` returns 201 with a user whose
username is the given one and whose stored avatarTag is exactly the
fixed-format markup embedding the stored avatarUrl as the image source and
the given username as the accessible alt text — i.e. equals
`generateAvatarTag username avatarUrl`, a pure function of those two
arguments. -/
theorem createUser_avatarTag_embeds (env : Entropy) (s : Store)
    (email username : Option String) (url : String)
    (he : truthyStr email = true) (hu : truthyStr username = true)
    (hnoconf : ∀ v ∈ s.users, v.deletedAt = none →
      v.email ≠ email.getD "" ∧ v.username ≠ username.getD "")
    (hurl : generateRandomAvatar env (email.getD "") = .ok url) :
    ∃ u : User, (createUser env s email username).1 = .success 201 u ∧
      u.username = username.getD "" ∧ u.avatarUrl = url ∧
      u.avatarTag = generateAvatarTag (username.getD "") url ∧
      u.avatarTag = "<img src=\"" ++ u.avatarUrl ++ "\" alt=\"Avatar for " ++
        username.getD "" ++ "\" />" := by
  have hfn : s.users.find? (fun x =>
      (x.email == email.getD "" || x.username == username.getD "") &&
        x.deletedAt == none) = none := by
    rw [List.find?_eq_none]
    intro v hv hp
    simp only [Bool.and_eq_true, Bool.or_eq_true, beq_iff_eq] at hp
    rcases hp with ⟨h1 | h1, h2⟩
    · exact (hnoconf v hv h2).1 h1
    · exact (hnoconf v hv h2).2 h1
  refine ⟨⟨s.nextUserId, email.getD "", username.getD "", url,
    generateAvatarTag (username.getD "") url, none⟩, ?_, rfl, rfl, rfl, rfl⟩
  simp [createUser, he, hu, hfn, hurl]

/-- Claim C8 witness: creating "bob" with email "a@x.com" in the empty
store embeds the generated URL and the username in the stored tag. -/
theorem createUser_avatarTag_embeds_witness :
    truthyStr (some "a@x.com") = true ∧ truthyStr (some "bob") = true ∧
    generateRandomAvatar env0 ((some "a@x.com" : Option String).getD "") =
      .ok "https://api.dicebear.com/5.x/avataaars-neutral/svg?seed=a-abc-x-xyz-com&size=200&radius=50" ∧
    ∃ u : User, (createUser env0 emptyStore (some "a@x.com") (some "bob")).1 = .success 201 u ∧
      u.username = (some "bob" : Option String).getD "" ∧
      u.avatarUrl = "https://api.dicebear.com/5.x/avataaars-neutral/svg?seed=a-abc-x-xyz-com&size=200&radius=50" ∧
      u.avatarTag = generateAvatarTag ((some "bob" : Option String).getD "")
        "https://api.dicebear.com/5.x/avataaars-neutral/svg?seed=a-abc-x-xyz-com&size=200&radius=50" ∧
      u.avatarTag = "<img src=\"" ++ u.avatarUrl ++ "\" alt=\"Avatar for " ++
        (some "bob" : Option String).getD "" ++ "\" />" :=
  ⟨by decide, by decide, rfl,
    createUser_avatarTag_embeds env0 emptyStore (some "a@x.com") (some "bob")
      "https://api.dicebear.com/5.x/avataaars-neutral/svg?seed=a-abc-x-xyz-com&size=200&radius=50"
      (by decide) (by decide) (by decide) rfl⟩

/-- Claim C10: updating an existing active user with a truthy new username
and no email change (email falsy, or equal to the current email) succeeds
and changes only the username field: avatarUrl, avatarTag and email keep
their stored values, so the avatarTag still embeds whatever username it
embedded before; the avatar fields are regenerated only on a differing
email. -/
theorem updateUser_username_only_keeps_avatar (env : Entropy) (s : Store) (id : Nat)
    (email : Option String) (newName : String) (user : User)
    (hfind : s.users.find? (fun u => u.id == id) = some user)
    (hactive : user.deletedAt = none)
    (hname : newName.isEmpty = false)
    (hemail : truthyStr email = false ∨ email = some user.email) :
    (updateUser env s id email (some newName)).1 =
      .success 200 { user with username := newName } := by
  have hn : truthyStr (some newName) = true := by
    simp [truthyStr, hname]
  rcases hemail with h | h
  · simp [updateUser, hfind, hactive, h, hn]
  · subst h
    simp [updateUser, hfind, hactive, hn]

/-- Claim C10 witness: renaming alice (id 1) to "newalice" without touching
the email leaves url "url-a" and tag "tag-a" in place. -/
theorem updateUser_username_only_keeps_avatar_witness :
    store0.users.find? (fun u => u.id == 1) = some alice ∧
    alice.deletedAt = none ∧
    ("newalice" : String).isEmpty = false ∧
    (updateUser env0 store0 1 none (some "newalice")).1 =
      .success 200 { alice with username := "newalice" } :=
  ⟨by decide, by decide, by decide,
    updateUser_username_only_keeps_avatar env0 store0 1 none "newalice" alice
      (by decide) (by decide) (by decide) (Or.inl (by decide))⟩

/-- Claim C7 counterexample: for the (already trimmed) email "x@y.z.w",
which contains two dots, and entropy tokens "aaaaa" and "bbbbb", the seed
the code builds carries the SAME token "bbbbb" at both dots, and differs
from the independent-substitution seed the claim prescribes, which places a
fresh third token "ccccc" at the second dot. -/
theorem buildSeed_not_independent_counterexample :
    buildSeed "aaaaa" "bbbbb" ("x@y.z.w".data) = ("x-aaaaa-y-bbbbb-z-bbbbb-w".data) ∧
    specSeedIndependent ["aaaaa", "bbbbb", "ccccc"] ("x@y.z.w".data) =
      ("x-aaaaa-y-bbbbb-z-ccccc-w".data) ∧
    buildSeed "aaaaa" "bbbbb" ("x@y.z.w".data) ≠
      specSeedIndependent ["aaaaa", "bbbbb", "ccccc"] ("x@y.z.w".data) :=
  ⟨by decide, by decide, by decide⟩

/-- Claim C7 (amended): for every email accepted by the validation (and
dot-free first token, as produced by `Math.random().toString(36)`), the
avatar call succeeds with exactly the DiceBear URL parameterized by the
randomly selected catalog style, the seed, size=200 and radius=50, where
the seed substitutes the first `@` of the trimmed email with the wrapped
first random token and EVERY `.` with the wrapped second random token — one
token shared by all dot occurrences (`substEmail`), not an independently
chosen token per occurrence. -/
theorem generateRandomAvatar_url_shared_dot_token (env : Entropy) (email : String)
    (hv : validEmailChars (trimChars email.data) = true)
    (ht : '.' ∉ env.tok1.data) :
    generateRandomAvatar env email =
      .ok ("https://api.dicebear.com/5.x/" ++ getRandomAvatarStyle env.styleIndex ++
        "/svg?seed=" ++ String.mk (substEmail env.tok1 env.tok2 (trimChars email.data)) ++
        "&size=200&radius=50") ∧
    getRandomAvatarStyle env.styleIndex ∈ avatarStyles := by
  refine ⟨?_, (getRandomAvatarStyle_facts env.styleIndex).1⟩
  rw [generateRandomAvatar_ok env email hv, buildSeed_eq_substEmail _ _ _ ht]

/-- Claim C7 witness: the amended URL/seed characterization evaluated at
entropy `env0` and the two-dot email "a@b.c.d". -/
theorem generateRandomAvatar_url_shared_dot_token_witness :
    validEmailChars (trimChars ("a@b.c.d".data)) = true ∧
    '.' ∉ ("abc" : String).data ∧
    (generateRandomAvatar env0 "a@b.c.d" =
      .ok ("https://api.dicebear.com/5.x/" ++ getRandomAvatarStyle env0.styleIndex ++
        "/svg?seed=" ++ String.mk (substEmail env0.tok1 env0.tok2 (trimChars ("a@b.c.d".data))) ++
        "&size=200&radius=50") ∧
      getRandomAvatarStyle env0.styleIndex ∈ avatarStyles) :=
  ⟨by decide, by decide,
    generateRandomAvatar_url_shared_dot_token env0 "a@b.c.d" (by decide) (by decide)⟩
